import Mathlib

/-
Shallow embedding of the accent-detector repository (src/accent_detector.py and
src/app.py) and verification of the frozen claims about it.

Modelling conventions:
  - The local file system is the list of paths currently present on disk.
  - Collaborator behaviour that the code merely reacts to (the HTTP response,
    the media decoder succeeding or failing, the pretrained classifier output)
    is an explicit environment record threaded through the pipeline.
  - Python exceptions become an explicit Except channel; a `try/except` in the
    source becomes a match on that channel.
  - Python floats for confidences/probabilities are modelled as rationals; the
    float() call of the source, applied to an already numeric value, is the
    identity in this model.
-/

namespace AccentApp

/-- The file system as the list of paths currently on disk. `os.remove`
deletes a path, so removal filters every occurrence of that path. -/
abbrev FS := List String

/-- The Python exception values the two source files can raise or catch.
`httpError` is `requests.HTTPError` from `raise_for_status` (carries the
status); `requestException` covers the other `requests` transport failures;
`osError` stands for any `OSError` from `os.remove` (`FileNotFoundError`
included); `valueError` is the `ValueError` of `process_audio_file`. -/
inductive PyErr where
  | httpError (status : Nat)
  | requestException
  | extractionError
  | classificationError
  | valueError (msg : String)
  | osError
deriving DecidableEq, Repr

/-- Rendering of an exception as message text, standing for Python `str(e)`
when the exception is interpolated into a UI message. The exact collaborator
wording is irrelevant to every claim; only which exception occurred matters. -/
def pyStr : PyErr → String
  | .httpError s => toString s ++ " Error for url"
  | .requestException => "connection error"
  | .extractionError => "extraction failed"
  | .classificationError => "classification failed"
  | .valueError m => m
  | .osError => "operation not permitted"

/-- Model of `os.remove(path)`: deletes the path when present and deletable,
otherwise raises an `OSError` (a missing file raises `FileNotFoundError`,
an `OSError` subclass). `rmOk` is the environment oracle saying whether the
operating system lets this process delete a given existing path. -/
def os_remove (rmOk : String → Bool) (path : String) (fs : FS) :
    FS × Except PyErr Unit :=
  if path ∈ fs then
    if rmOk path then (fs.filter (fun q => q != path), Except.ok ())
    else (fs, Except.error PyErr.osError)
  else (fs, Except.error PyErr.osError)

/-- Outcome of a `cleanup_files` call: the resulting file system, everything
the function logged, and the exception it let escape (if any). The source
(src/accent_detector.py lines 121-133 and the identical copy in src/app.py
lines 53-60) logs nothing and catches `OSError`. -/
structure CleanupOut where
  fs : FS
  log : List String
  exn : Option PyErr
deriving Repr

/-- One iteration of the loop body of `cleanup_files` (src/accent_detector.py
lines 128-133): `if path and os.path.exists(path): try: os.remove(path)
except OSError: pass`. An exception already escaping aborts the loop;
`if path` skips `None` and the empty string; the `except OSError` arm does
nothing (no log entry, no re-raise). -/
def cleanup_step (rmOk : String → Bool) (st : CleanupOut) (p : Option String) :
    CleanupOut :=
  match st.exn with
  | some _ => st
  | none =>
    match p with
    | none => st
    | some path =>
      if path = "" then st
      else if path ∈ st.fs then
        match os_remove rmOk path st.fs with
        | (fs2, Except.ok _) => { st with fs := fs2 }
        | (fs2, Except.error _) => { st with fs := fs2 }
      else st

/-- Model of `cleanup_files(*paths)` from src/accent_detector.py lines 121-133
(src/app.py lines 53-60 is the same code): best-effort deletion of each
argument, where an argument may be `None`. -/
def cleanup_files (rmOk : String → Bool) (paths : List (Option String))
    (fs : FS) : CleanupOut :=
  paths.foldl (cleanup_step rmOk) ⟨fs, [], none⟩

/-- Python `float()` applied to an already numeric score or probability:
the identity in the rational model (src/accent_detector.py lines 106, 109). -/
def pyFloat (q : ℚ) : ℚ := q

/-- Python `str.capitalize()`: first character uppercased, every remaining
character lowercased (src/accent_detector.py line 111). -/
def pyCapitalize (s : String) : String :=
  match s.data with
  | [] => ""
  | c :: rest => String.mk (c.toUpper :: rest.map Char.toLower)

/-- Reading of the claim text for C5, kept separate for comparison with the
source: the label with only its first character capitalized and the rest of
the string untouched. -/
def capFirstSpec (s : String) : String :=
  match s.data with
  | [] => ""
  | c :: rest => String.mk (c.toUpper :: rest)

/-- Round the fraction `n / d` (with `d` positive) to the nearest integer,
ties to even: the rounding used by Python fixed-point float formatting.
`Int.fdiv n d` is the floor; the remainder decides the direction. -/
def rheAux (n d : ℤ) : ℤ :=
  if 2 * (n - d * Int.fdiv n d) < d then Int.fdiv n d
  else if 2 * (n - d * Int.fdiv n d) > d then Int.fdiv n d + 1
  else if Int.fdiv n d % 2 = 0 then Int.fdiv n d else Int.fdiv n d + 1

/-- Round a rational to the nearest integer, ties to even. -/
def rhe (q : ℚ) : ℤ := rheAux q.num (q.den : ℤ)

/-- Two-digit zero padding of a nonnegative remainder. -/
def pad2 (i : ℤ) : String :=
  if i < 10 then "0" ++ toString i else toString i

/-- Python `f"{q:.2%}"` for a nonnegative rational `q`: multiply by 100,
render with two decimal places (ties to even), append a percent sign
(src/accent_detector.py line 111). `rhe (q * 10000)` is the total number of
hundredths of a percent. -/
def fmtPercent2 (q : ℚ) : String :=
  toString (Int.fdiv (rhe (q * 10000)) 100) ++ "."
    ++ pad2 (rhe (q * 10000) - 100 * Int.fdiv (rhe (q * 10000)) 100) ++ "%"

/-- What `classifier.classify_file` hands back to `classify_accent`
(src/accent_detector.py line 101): the first row of the output probability
tensor, the label list of the label encoder, the top score, and the first
entry of the text-label batch. -/
structure ClassifierOutput where
  labels : List String
  probs : List ℚ
  score : ℚ
  textLab : String

/-- The result dictionary built by `classify_accent`
(src/accent_detector.py lines 113-118). The `probabilities` dict is an
insertion-ordered mapping, modelled as an association list. -/
structure CResult where
  summary : String
  accent : String
  confidence : ℚ
  probabilities : List (String × ℚ)

/-- Model of `classify_accent(audio_path)` from src/accent_detector.py lines 98-118,
as a function of what the classifier collaborator returned:
`probabilities = {label: float(prob) for label, prob in zip(labels, out_prob[0])}`,
`accent = text_lab[0]`, `confidence = float(score[0])`, and
`summary = f"Detected accent: {accent.capitalize()} with confidence {confidence:.2%}"`. -/
def classify_accent (out : ClassifierOutput) : CResult :=
  { summary := "Detected accent: " ++ pyCapitalize out.textLab
      ++ " with confidence " ++ fmtPercent2 (pyFloat out.score)
    accent := out.textLab
    confidence := pyFloat out.score
    probabilities := out.labels.zip (out.probs.map pyFloat) }

/-- The video-container extensions of `process_audio_file`
(src/app.py line 36). -/
def videoExts : List String := [".mp4", ".mkv", ".mov", ".m4a"]

/-- The plain-audio extensions of `process_audio_file` (src/app.py line 45). -/
def audioExts : List String := [".mp3", ".wav"]

/-- A UI emission: `st.error` or `st.info`. -/
inductive UIEvent where
  | errorBox (msg : String)
  | infoBox (msg : String)
deriving DecidableEq, Repr

/-- Outcome of `process_audio_file`: its return value or raised exception,
whether the media extractor (`VideoFileClip` + `write_audiofile`) was invoked,
and the `st.info` messages shown. -/
structure PAOut where
  result : Except PyErr String
  extracted : Bool
  uiInfo : List UIEvent
deriving Repr

/-- Model of `process_audio_file(file_path, file_ext)` from src/app.py lines 30-50.
`extractOk` is the environment flag for whether the media decoder succeeds
on the video branch. -/
def process_audio_file (extractOk : Bool) (file_path file_ext : String) :
    PAOut :=
  if file_ext ∈ videoExts then
    { result := if extractOk then Except.ok (file_path ++ ".wav")
        else Except.error PyErr.extractionError
      extracted := true
      uiInfo := [UIEvent.infoBox "Extracting audio from video…"] }
  else if file_ext ∈ audioExts then
    { result := Except.ok file_path
      extracted := false
      uiInfo := [UIEvent.infoBox "Processing audio file…"] }
  else
    { result := Except.error
        (PyErr.valueError ("Unsupported file format: " ++ file_ext))
      extracted := false
      uiInfo := [] }

/-- Outcome of the local-file flow `detect_from_file`: whether extraction was
invoked, the path actually handed to `classify_accent` (`none` when the
classifier was never invoked), and the result or exception. -/
structure FileOutcome where
  extracted : Bool
  classifiedPath : Option String
  result : Except PyErr CResult

/-- The local-file pipeline the spec calls `detect_from_file(path, extension)`:
`audio_path = process_audio_file(path, ext)` followed by
`classify_accent(audio_path)`, exactly as the upload handler composes them in
src/app.py lines 72-82. `cls` is the classifier collaborator outcome
(`none` means classification raises). -/
def detect_from_file (extractOk : Bool) (cls : Option ClassifierOutput)
    (path ext : String) : FileOutcome :=
  let pa := process_audio_file extractOk path ext
  match pa.result with
  | Except.error e => ⟨pa.extracted, none, Except.error e⟩
  | Except.ok audio_path =>
    match cls with
    | some out => ⟨pa.extracted, some audio_path, Except.ok (classify_accent out)⟩
    | none => ⟨pa.extracted, some audio_path, Except.error PyErr.classificationError⟩

/-- Index of the last occurrence of a character, Python `str.rfind`
(as an option instead of the -1 sentinel). -/
def rfindIdxAux (c : Char) : List Char → Option Nat
  | [] => none
  | x :: xs =>
    match rfindIdxAux c xs with
    | some j => some (j + 1)
    | none => if x == c then some 0 else none

/-- Python `p.rfind("/")`: index of the last slash, `-1` when absent. -/
def sepIdxOf (l : List Char) : Int :=
  match rfindIdxAux '/' l with
  | none => -1
  | some i => (i : Int)

/-- Python `p.rfind(".")`: index of the last dot, `-1` when absent. -/
def dotIdxOf (l : List Char) : Int :=
  match rfindIdxAux '.' l with
  | none => -1
  | some i => (i : Int)

/-- The extension component of CPython `posixpath.splitext(p)`: the suffix
from the last dot after the last slash, unless every character of the
basename before that dot is itself a dot (leading dots are not an
extension). -/
def splitext_ext (p : String) : String :=
  if sepIdxOf p.data < dotIdxOf p.data then
    if ((p.data.drop (sepIdxOf p.data + 1).toNat).take
        (dotIdxOf p.data - sepIdxOf p.data - 1).toNat).any
        (fun c => c != '.') then
      String.mk (p.data.drop (dotIdxOf p.data).toNat)
    else ""
  else ""

/-- Python `str.lower()`. -/
def pyLower (s : String) : String := String.mk (s.data.map Char.toLower)

/-- The characters CPython `tempfile` draws random temp-file name suffixes
from: lowercase ASCII letters, digits and underscore. -/
def tempAlphabet : List Char := "abcdefghijklmnopqrstuvwxyz0123456789_".data

/-- The path produced by `tempfile.NamedTemporaryFile(delete=False)` with
default arguments, as in src/app.py line 67: default temp directory, prefix
`tmp`, NO suffix, and a random run of characters from `tempAlphabet`. -/
def mkstempName (rand : List Char) : String :=
  String.mk ("/tmp/tmp".data ++ rand)

/-- Model of `file_ext = os.path.splitext(tmp_path)[1].lower()` from src/app.py
line 71, computed from the temp path the upload was saved to. -/
def upload_file_ext (rand : List Char) : String :=
  pyLower (splitext_ext (mkstempName rand))

/-- Environment for one run of the URL pipeline: everything the outside
world decides. `connectOk` is whether `requests.get` itself succeeds;
`status` the HTTP status of the response; `streamOk` whether the chunked
body read completes after the temp file is created; `videoName`/`audioName`
the fresh names `tempfile` picks; `extractOk` whether the media decoder
succeeds after the WAV temp file is created; `classifyOk` whether the
classifier collaborator succeeds, with output `clsOut`; `rmOk` the
deletability oracle for `os.remove`. -/
structure Env where
  connectOk : Bool
  status : Nat
  streamOk : Bool
  videoName : String
  extractOk : Bool
  audioName : String
  classifyOk : Bool
  clsOut : ClassifierOutput
  rmOk : String → Bool

/-- Put a fresh path on disk. -/
def insertPath (p : String) (fs : FS) : FS :=
  if p ∈ fs then fs else p :: fs

/-- Model of `download_video(url)` from src/accent_detector.py lines 33-53:
`requests.get` (transport failure raises before any file exists), then
`raise_for_status` (raises `HTTPError` for a 4xx or 5xx status, before any
file exists), then `NamedTemporaryFile(delete=False, suffix=".mp4")` creates
the container file, then the chunk loop writes the body (a mid-stream
failure raises after the file exists). Returns the updated file system, the
list of temp files this step created, and the returned path or exception. -/
def download_video (env : Env) (fs : FS) :
    FS × List String × Except PyErr String :=
  if env.connectOk then
    if 400 ≤ env.status ∧ env.status < 600 then
      (fs, [], Except.error (PyErr.httpError env.status))
    else
      let fs2 := insertPath env.videoName fs
      if env.streamOk then (fs2, [env.videoName], Except.ok env.videoName)
      else (fs2, [env.videoName], Except.error PyErr.requestException)
  else (fs, [], Except.error PyErr.requestException)

/-- Model of `extract_audio(video_path)` from src/accent_detector.py lines 56-78:
`NamedTemporaryFile(delete=False, suffix=".wav")` creates the WAV file
first; only then do `VideoFileClip` and `write_audiofile` run, and any
failure there raises after the WAV file exists, without returning its name. -/
def extract_audio (env : Env) (fs : FS) :
    FS × List String × Except PyErr String :=
  let fs2 := insertPath env.audioName fs
  if env.extractOk then (fs2, [env.audioName], Except.ok env.audioName)
  else (fs2, [env.audioName], Except.error PyErr.extractionError)

/-- The classification step as invoked by the URL pipeline: touches no
temporary file; succeeds with the adapter result built from the collaborator
output, or raises. -/
def classify_accent_file (env : Env) (fs : FS) :
    FS × Except PyErr CResult :=
  if env.classifyOk then (fs, Except.ok (classify_accent env.clsOut))
  else (fs, Except.error PyErr.classificationError)

/-- The pipeline steps, for stating which stages ran. -/
inductive Step where
  | fetch
  | extract
  | classify
deriving DecidableEq, Repr

/-- Outcome of `detect_accent_from_url`: final file system, every temp file
created during the call, the steps that ran, the UI emissions, and the
returned value (`none` on the except path). -/
structure UrlOutcome where
  fs : FS
  created : List String
  steps : List Step
  ui : List UIEvent
  result : Option CResult

/-- The fixed `st.info` guidance block of src/accent_detector.py
lines 154-161. -/
def troubleshootingTips : String :=
  "Troubleshooting tips:\n- Ensure the URL is a direct link to a public video (e.g., MP4, MOV, MKV).\n- The video should be accessible and not private or restricted.\n- Try uploading a local file if the URL does not work.\n- Large or long videos may take longer to process or may fail.\n- Only English speech is supported for accent detection."

/-- The two UI emissions of the except-branch of `detect_accent_from_url`
(src/accent_detector.py lines 152-161). -/
def urlFailureUI (e : PyErr) : List UIEvent :=
  [UIEvent.errorBox ("Failed to process the video URL: " ++ pyStr e),
   UIEvent.infoBox troubleshootingTips]

/-- Model of `detect_accent_from_url(url)` from src/accent_detector.py lines 136-164:
`tmp_video_path = None; tmp_audio_path = None`, then inside `try`:
`tmp_video_path = download_video(url)`,
`tmp_audio_path = extract_audio(tmp_video_path)`,
`return classify_accent(tmp_audio_path)`; `except Exception` shows the error
plus the guidance block and returns `None`; `finally` runs
`cleanup_files(tmp_video_path, tmp_audio_path)` with whatever values the two
variables hold at that point (still `None` for a step that raised before
returning its path). -/
def detect_accent_from_url (env : Env) (fs : FS) : UrlOutcome :=
  match download_video env fs with
  | (fs1, c1, Except.error e) =>
    ⟨(cleanup_files env.rmOk [none, none] fs1).fs, c1, [Step.fetch],
      urlFailureUI e, none⟩
  | (fs1, c1, Except.ok v) =>
    match extract_audio env fs1 with
    | (fs2, c2, Except.error e) =>
      ⟨(cleanup_files env.rmOk [some v, none] fs2).fs, c1 ++ c2,
        [Step.fetch, Step.extract], urlFailureUI e, none⟩
    | (fs2, c2, Except.ok a) =>
      match classify_accent_file env fs2 with
      | (fs3, Except.error e) =>
        ⟨(cleanup_files env.rmOk [some v, some a] fs3).fs, c1 ++ c2,
          [Step.fetch, Step.extract, Step.classify], urlFailureUI e, none⟩
      | (fs3, Except.ok r) =>
        ⟨(cleanup_files env.rmOk [some v, some a] fs3).fs, c1 ++ c2,
          [Step.fetch, Step.extract, Step.classify], [], some r⟩

/-- Some step of the URL pipeline raises. -/
def stepFails (env : Env) : Prop :=
  env.connectOk = false ∨ (400 ≤ env.status ∧ env.status < 600)
    ∨ env.streamOk = false ∨ env.extractOk = false ∨ env.classifyOk = false

/-- A run where download succeeds but the media decoder fails after the WAV
temp file was created: the leak scenario for claim C1. -/
def envLeak : Env :=
  { connectOk := true, status := 200, streamOk := true,
    videoName := "/tmp/tmpv1.mp4", extractOk := false,
    audioName := "/tmp/tmpa1.wav", classifyOk := true,
    clsOut := ⟨[], [], 0, ""⟩, rmOk := fun _ => true }

/-- A run whose HTTP response has status 304: non-2xx, yet not in the 4xx/5xx
range that `raise_for_status` raises for. -/
def env304 : Env :=
  { connectOk := true, status := 304, streamOk := true,
    videoName := "/tmp/tmpv2.mp4", extractOk := false,
    audioName := "/tmp/tmpa2.wav", classifyOk := true,
    clsOut := ⟨[], [], 0, ""⟩, rmOk := fun _ => true }

/-- A run whose HTTP response has status 404. -/
def env404 : Env :=
  { connectOk := true, status := 404, streamOk := true,
    videoName := "/tmp/tmpv3.mp4", extractOk := true,
    audioName := "/tmp/tmpa3.wav", classifyOk := true,
    clsOut := ⟨[], [], 0, ""⟩, rmOk := fun _ => true }

/-- A run where only the classification step fails. -/
def envClassifyFail : Env :=
  { connectOk := true, status := 200, streamOk := true,
    videoName := "/tmp/tmpv4.mp4", extractOk := true,
    audioName := "/tmp/tmpa4.wav", classifyOk := false,
    clsOut := ⟨[], [], 0, ""⟩, rmOk := fun _ => true }

/-- A cleanup iteration never writes to the log. -/
theorem cleanup_step_log (rmOk : String → Bool) (st : CleanupOut)
    (p : Option String) : (cleanup_step rmOk st p).log = st.log := by
  obtain ⟨sfs, slog, sexn⟩ := st
  unfold cleanup_step
  cases sexn with
  | some e => rfl
  | none =>
    cases p with
    | none => rfl
    | some path =>
      by_cases h1 : path = ""
      · simp [h1]
      · simp only [if_neg h1]
        by_cases h2 : path ∈ sfs
        · simp only [h2, if_true]
          rcases hr : os_remove rmOk path sfs with ⟨fs2, r⟩
          cases r <;> rfl
        · simp [h2]

/-- A cleanup iteration never changes the escaping-exception channel. -/
theorem cleanup_step_exn (rmOk : String → Bool) (st : CleanupOut)
    (p : Option String) : (cleanup_step rmOk st p).exn = st.exn := by
  obtain ⟨sfs, slog, sexn⟩ := st
  unfold cleanup_step
  cases sexn with
  | some e => rfl
  | none =>
    cases p with
    | none => rfl
    | some path =>
      by_cases h1 : path = ""
      · simp [h1]
      · simp only [if_neg h1]
        by_cases h2 : path ∈ sfs
        · simp only [h2, if_true]
          rcases hr : os_remove rmOk path sfs with ⟨fs2, r⟩
          cases r <;> rfl
        · simp [h2]

/-- A cleanup iteration only ever deletes files. -/
theorem cleanup_step_fs_subset (rmOk : String → Bool) (st : CleanupOut)
    (p : Option String) : (cleanup_step rmOk st p).fs ⊆ st.fs := by
  obtain ⟨sfs, slog, sexn⟩ := st
  unfold cleanup_step
  cases sexn with
  | some e => exact fun x hx => hx
  | none =>
    cases p with
    | none => exact fun x hx => hx
    | some path =>
      by_cases h1 : path = ""
      · simp [h1]
      · simp only [if_neg h1]
        by_cases h2 : path ∈ sfs
        · simp only [h2, if_true]
          unfold os_remove
          simp only [h2, if_true]
          by_cases h3 : rmOk path
          · rw [if_pos h3]
            exact fun x hx => (List.mem_filter.mp hx).1
          · rw [if_neg h3]
            exact fun x hx => hx
        · simp [h2]

/-- The cleanup loop never writes to the log. -/
theorem cleanup_foldl_log (rmOk : String → Bool) (paths : List (Option String))
    (st : CleanupOut) : (paths.foldl (cleanup_step rmOk) st).log = st.log := by
  induction paths generalizing st with
  | nil => rfl
  | cons p rest ih =>
    rw [List.foldl_cons, ih, cleanup_step_log]

/-- The cleanup loop never changes the escaping-exception channel. -/
theorem cleanup_foldl_exn (rmOk : String → Bool) (paths : List (Option String))
    (st : CleanupOut) : (paths.foldl (cleanup_step rmOk) st).exn = st.exn := by
  induction paths generalizing st with
  | nil => rfl
  | cons p rest ih =>
    rw [List.foldl_cons, ih, cleanup_step_exn]

/-- The cleanup loop only ever deletes files. -/
theorem cleanup_foldl_fs_subset (rmOk : String → Bool)
    (paths : List (Option String)) (st : CleanupOut) :
    (paths.foldl (cleanup_step rmOk) st).fs ⊆ st.fs := by
  induction paths generalizing st with
  | nil => exact fun x hx => hx
  | cons p rest ih =>
    rw [List.foldl_cons]
    exact (ih (cleanup_step rmOk st p)).trans (cleanup_step_fs_subset rmOk st p)

/-- Processing a nonempty deletable path removes it from disk. -/
theorem cleanup_step_removes (rmOk : String → Bool) (st : CleanupOut)
    (path : String) (hexn : st.exn = none) (hne : path ≠ "")
    (hok : rmOk path = true) :
    path ∉ (cleanup_step rmOk st (some path)).fs := by
  obtain ⟨sfs, slog, sexn⟩ := st
  cases sexn with
  | some e => cases hexn
  | none =>
    unfold cleanup_step
    simp only [if_neg hne]
    by_cases h2 : path ∈ sfs
    · simp only [h2, if_true]
      unfold os_remove
      simp only [h2, if_true]
      rw [if_pos hok]
      intro hx
      have hx2 := (List.mem_filter.mp hx).2
      simp at hx2
    · rw [if_neg h2]
      exact h2

/-- After the cleanup loop, every nonempty deletable path named in the
argument list is off the disk. -/
theorem cleanup_foldl_removes (rmOk : String → Bool)
    (paths : List (Option String)) (st : CleanupOut) (path : String)
    (hp : some path ∈ paths) (hexn : st.exn = none) (hne : path ≠ "")
    (hok : rmOk path = true) :
    path ∉ (paths.foldl (cleanup_step rmOk) st).fs := by
  induction paths generalizing st with
  | nil => cases hp
  | cons p rest ih =>
    rw [List.foldl_cons]
    rcases List.mem_cons.mp hp with heq | hmem
    · subst heq
      intro hx
      exact cleanup_step_removes rmOk st path hexn hne hok
        (cleanup_foldl_fs_subset rmOk rest _ hx)
    · exact ih _ hmem (by rw [cleanup_step_exn, hexn])

/-- A cleanup iteration whose path is absent or undeletable changes nothing. -/
theorem cleanup_step_id (rmOk : String → Bool) (st : CleanupOut)
    (p : Option String)
    (h : ∀ path, p = some path → path ≠ "" → rmOk path = true → path ∉ st.fs) :
    cleanup_step rmOk st p = st := by
  obtain ⟨sfs, slog, sexn⟩ := st
  unfold cleanup_step
  cases sexn with
  | some e => rfl
  | none =>
    cases p with
    | none => rfl
    | some path =>
      by_cases h1 : path = ""
      · simp [h1]
      · simp only [if_neg h1]
        by_cases h2 : path ∈ sfs
        · by_cases h3 : rmOk path
          · exact absurd h2 (h path rfl h1 h3)
          · simp only [h2, if_true]
            unfold os_remove
            simp only [h2, if_true]
            rw [if_neg h3]
        · simp [h2]

/-- The cleanup loop is the identity when every iteration is. -/
theorem cleanup_foldl_id (rmOk : String → Bool) (paths : List (Option String))
    (st : CleanupOut) (h : ∀ p ∈ paths, cleanup_step rmOk st p = st) :
    paths.foldl (cleanup_step rmOk) st = st := by
  induction paths with
  | nil => rfl
  | cons p rest ih =>
    rw [List.foldl_cons, h p (List.mem_cons_self p rest)]
    exact ih (fun q hq => h q (List.mem_cons_of_mem p hq))

/-- Claim C10: `cleanup_files` is total and never raises for any argument
list — any argument may be `None` or name a missing file, the `except
OSError: pass` absorbs every failure `os.remove` can produce, and the call
returns normally (no exception escapes); and running it a second time with
the same arguments leaves the file system exactly where the first run left
it. -/
theorem claim10_cleanup_total_idempotent (rmOk : String → Bool)
    (paths : List (Option String)) (fs : FS) :
    (cleanup_files rmOk paths fs).exn = none ∧
    (cleanup_files rmOk paths ((cleanup_files rmOk paths fs).fs)).fs
      = (cleanup_files rmOk paths fs).fs := by
  constructor
  · exact cleanup_foldl_exn rmOk paths ⟨fs, [], none⟩
  · have hid : paths.foldl (cleanup_step rmOk)
        ⟨(cleanup_files rmOk paths fs).fs, [], none⟩
        = ⟨(cleanup_files rmOk paths fs).fs, [], none⟩ := by
      apply cleanup_foldl_id
      intro p hp
      apply cleanup_step_id
      intro path hpe hne hok
      exact cleanup_foldl_removes rmOk paths ⟨fs, [], none⟩ path
        (hpe ▸ hp) rfl hne hok
    show (paths.foldl (cleanup_step rmOk)
        ⟨(cleanup_files rmOk paths fs).fs, [], none⟩).fs
      = (cleanup_files rmOk paths fs).fs
    rw [hid]

/-- Claim C7 counterexample: a file that exists but cannot be deleted (the
removal oracle denies it, as a `PermissionError`-style `OSError` would).
The cleanup call leaves the file on disk — so a non-missing-file deletion
error did occur — yet its log output is empty and nothing propagates: the
error is silently suppressed, contradicting the claim that such an error is
kept observable in a log. -/
theorem claim7_silent_suppression_counterexample :
    cleanup_files (fun _ => false) [some "/tmp/x"] ["/tmp/x"]
      = ⟨["/tmp/x"], [], none⟩ := rfl

/-- Claim C7 (amended): temporary-file deletion in `cleanup_files` is
best-effort — a missing-file condition is silently skipped by the
`os.path.exists` pre-check, and every other deletion error (`OSError`) is
also silently suppressed by the `except OSError: pass` arm: nothing is ever
logged, and no deletion error is propagated to the caller. -/
theorem claim7_amended_cleanup_silent (rmOk : String → Bool)
    (paths : List (Option String)) (fs : FS) (path : String)
    (h : path ∉ fs) :
    (cleanup_files rmOk paths fs).log = [] ∧
    (cleanup_files rmOk paths fs).exn = none ∧
    cleanup_files rmOk [some path] fs = ⟨fs, [], none⟩ := by
  refine ⟨cleanup_foldl_log rmOk paths ⟨fs, [], none⟩,
    cleanup_foldl_exn rmOk paths ⟨fs, [], none⟩, ?_⟩
  show cleanup_step rmOk ⟨fs, [], none⟩ (some path) = ⟨fs, [], none⟩
  apply cleanup_step_id
  intro p2 hpe hne hok
  cases Option.some.inj hpe
  exact h

/-- Claim C7 witness for the amended theorem, at a concrete missing path. -/
theorem claim7_amended_witness :
    ("/tmp/gone" ∉ (["/tmp/other"] : FS)) ∧
    cleanup_files (fun _ => true) [some "/tmp/gone"] ["/tmp/other"]
      = ⟨["/tmp/other"], [], none⟩ := by
  refine ⟨by decide, ?_⟩
  exact (claim7_amended_cleanup_silent (fun _ => true) [some "/tmp/gone"]
    ["/tmp/other"] "/tmp/gone" (by decide)).2.2

/-- Flooring division by one is the identity. -/
theorem int_fdiv_one (n : ℤ) : Int.fdiv n 1 = n := by
  cases n with
  | ofNat m =>
    cases m with
    | zero => rfl
    | succ k =>
      show Int.ofNat (Nat.succ k / 1) = Int.ofNat (Nat.succ k)
      rw [Nat.div_one]
  | negSucc m =>
    show Int.negSucc (m / 1) = Int.negSucc m
    rw [Nat.div_one]

/-- Round-half-even is the identity on integers. -/
theorem rhe_intCast (n : ℤ) : rhe ((n : ℚ)) = n := by
  unfold rhe
  rw [Rat.num_intCast, Rat.den_intCast]
  unfold rheAux
  rw [show ((1 : ℕ) : ℤ) = 1 from rfl, int_fdiv_one]
  simp

/-- Evaluation of the percent formatting at confidence 0.8734. -/
theorem fmtPercent2_8734 : fmtPercent2 ((8734 : ℚ)/10000) = "87.34%" := by
  unfold fmtPercent2
  rw [show ((8734 : ℚ)/10000) * 10000 = ((8734 : ℤ) : ℚ) by norm_num,
    rhe_intCast]
  rfl

/-- The summary string of the adapter, for any collaborator output whose
score is 0.8734. -/
theorem summary_8734_aux (out : ClassifierOutput)
    (h : out.score = 8734/10000) :
    (classify_accent out).summary
      = "Detected accent: " ++ pyCapitalize out.textLab
          ++ " with confidence " ++ "87.34%" := by
  show "Detected accent: " ++ pyCapitalize out.textLab
      ++ " with confidence " ++ fmtPercent2 (pyFloat out.score) = _
  rw [h]
  show "Detected accent: " ++ pyCapitalize out.textLab
      ++ " with confidence " ++ fmtPercent2 ((8734 : ℚ)/10000) = _
  rw [fmtPercent2_8734]

/-- Claim C5 counterexample: the claim reads the summary as the label with
its first character capitalized and the rest untouched (`capFirstSpec`).
The code applies Python `str.capitalize`, which also lowercases the rest:
for the collaborator label `"US"` with confidence 0.8734 the code renders
`"Detected accent: Us with confidence 87.34%"`, not `"...US..."`, so the
claim fails at this input. -/
theorem claim5_capitalize_counterexample :
    (classify_accent ⟨["us"], [1], 8734/10000, "US"⟩).summary
      ≠ "Detected accent: " ++ capFirstSpec "US" ++ " with confidence "
          ++ "87.34%" := by
  rw [summary_8734_aux ⟨["us"], [1], 8734/10000, "US"⟩ rfl]
  decide

/-- Claim C5 (amended): the summary string equals `"Detected accent: "`
followed by the label with its first character uppercased AND the remaining
characters lowercased (Python `str.capitalize`), followed by
`" with confidence "` and the confidence as a percentage with two decimal
places; for confidence 0.8734 that percentage renders as `"87.34%"`. -/
theorem claim5_amended_summary_format (out : ClassifierOutput)
    (h : out.score = 8734/10000) :
    (classify_accent out).summary
      = "Detected accent: " ++ pyCapitalize out.textLab
          ++ " with confidence " ++ "87.34%" :=
  summary_8734_aux out h

/-- Claim C5 witness: the amended theorem applied at a concrete
collaborator output. -/
theorem claim5_amended_witness :
    ((⟨["us"], [1], 8734/10000, "US"⟩ : ClassifierOutput).score
        = 8734/10000) ∧
    (classify_accent ⟨["us"], [1], 8734/10000, "US"⟩).summary
      = "Detected accent: " ++ pyCapitalize "US" ++ " with confidence "
          ++ "87.34%" :=
  ⟨rfl, claim5_amended_summary_format ⟨["us"], [1], 8734/10000, "US"⟩ rfl⟩

/-- Claim C6: under the contract that the collaborator returns one
probability per label of its fixed label set (equal lengths, distinct
labels) and that the probability vector is a distribution (sums to 1), the
`probabilities` mapping built by `classify_accent` has exactly the label
set as its keys — each label exactly once, in the order given by the collaborator —
its values are the float conversions of the probabilities in the same
order, those values sum to exactly 1, and the confidence is the float
conversion of the collaborator score. -/
theorem claim6_probabilities_mapping (out : ClassifierOutput)
    (h1 : out.labels.Nodup) (h2 : out.labels.length = out.probs.length)
    (h3 : out.probs.sum = 1) :
    (classify_accent out).probabilities.map Prod.fst = out.labels ∧
    ((classify_accent out).probabilities.map Prod.fst).Nodup ∧
    (classify_accent out).probabilities.map Prod.snd
      = out.probs.map pyFloat ∧
    ((classify_accent out).probabilities.map Prod.snd).sum = 1 ∧
    (classify_accent out).confidence = pyFloat out.score := by
  have hlen1 : out.labels.length ≤ (out.probs.map pyFloat).length := by
    rw [List.length_map]
    exact le_of_eq h2
  have hlen2 : (out.probs.map pyFloat).length ≤ out.labels.length := by
    rw [List.length_map]
    exact le_of_eq h2.symm
  have hfst : (classify_accent out).probabilities.map Prod.fst
      = out.labels := by
    show (out.labels.zip (out.probs.map pyFloat)).map Prod.fst = out.labels
    exact List.map_fst_zip _ _ hlen1
  have hsnd : (classify_accent out).probabilities.map Prod.snd
      = out.probs.map pyFloat := by
    show (out.labels.zip (out.probs.map pyFloat)).map Prod.snd = _
    exact List.map_snd_zip _ _ hlen2
  have hid : out.probs.map pyFloat = out.probs := by
    rw [show pyFloat = id from rfl, List.map_id]
  refine ⟨hfst, hfst ▸ h1, hsnd, ?_, rfl⟩
  rw [hsnd, hid, h3]

/-- Claim C6 witness: the theorem applied at a concrete two-label
collaborator output. -/
theorem claim6_witness :
    (["us", "england"] : List String).Nodup ∧
    ([1/4, 3/4] : List ℚ).sum = 1 ∧
    (classify_accent
        ⟨["us", "england"], [1/4, 3/4], 3/4, "england"⟩).probabilities.map
      Prod.fst = ["us", "england"] := by
  refine ⟨by decide, by norm_num, ?_⟩
  exact (claim6_probabilities_mapping
    ⟨["us", "england"], [1/4, 3/4], 3/4, "england"⟩
    (by decide) rfl (by norm_num)).1

/-- Searching with `rfind` in a list not containing the character finds nothing. -/
theorem rfindIdxAux_eq_none (c : Char) (l : List Char) (h : c ∉ l) :
    rfindIdxAux c l = none := by
  induction l with
  | nil => rfl
  | cons x xs ih =>
    have hx : (x == c) = false := by
      simp only [beq_eq_false_iff_ne]
      intro he
      exact h (he ▸ List.mem_cons_self x xs)
    simp only [rfindIdxAux]
    rw [ih (fun hm => h (List.mem_cons_of_mem x hm))]
    simp [hx]

/-- The last-slash index is at least the Python `-1` sentinel. -/
theorem neg_one_le_sepIdxOf (l : List Char) : -1 ≤ sepIdxOf l := by
  unfold sepIdxOf
  cases rfindIdxAux '/' l with
  | none =>
    show (-1 : Int) ≤ -1
    omega
  | some i =>
    show -1 ≤ (i : Int)
    omega

/-- A path containing no dot has an empty extension. -/
theorem splitext_ext_of_no_dot (p : String) (h : '.' ∉ p.data) :
    splitext_ext p = "" := by
  unfold splitext_ext
  have hd : dotIdxOf p.data = -1 := by
    unfold dotIdxOf
    rw [rfindIdxAux_eq_none '.' p.data h]
  rw [hd, if_neg (by have := neg_one_le_sepIdxOf p.data; omega)]

/-- Claim C2: the upload handler saves the uploaded bytes to a temp file
created with no filename suffix (src/app.py line 67) and computes the
extension from that temp path, not from the original upload name (line 71).
The temp path is `/tmp/tmp` plus random characters from the tempfile
alphabet, which contains no dot, so the computed extension is always the
empty string, and `process_audio_file` takes the unsupported-format branch
(raising `ValueError`, no extraction) for every upload, whatever its actual
type. -/
theorem claim2_upload_extension_empty (rand : List Char) (extractOk : Bool)
    (h : ∀ c ∈ rand, c ∈ tempAlphabet) :
    upload_file_ext rand = "" ∧
    process_audio_file extractOk (mkstempName rand) (upload_file_ext rand)
      = ⟨Except.error (PyErr.valueError "Unsupported file format: "),
          false, []⟩ := by
  have hdot : '.' ∉ (mkstempName rand).data := by
    show '.' ∉ "/tmp/tmp".data ++ rand
    intro hm
    rcases List.mem_append.mp hm with hl | hr
    · exact absurd hl (by decide)
    · exact absurd (h '.' hr) (by decide)
  have hext : upload_file_ext rand = "" := by
    unfold upload_file_ext
    rw [splitext_ext_of_no_dot _ hdot]
    rfl
  refine ⟨hext, ?_⟩
  rw [hext]
  rfl

/-- Claim C2 witness: the theorem applied at a concrete random temp-name
suffix. -/
theorem claim2_witness :
    (∀ c ∈ "a1b2c3d4".data, c ∈ tempAlphabet) ∧
    upload_file_ext "a1b2c3d4".data = "" := by
  refine ⟨by decide, ?_⟩
  exact (claim2_upload_extension_empty "a1b2c3d4".data true (by decide)).1

/-- Claim C4: for any extension outside the recognized set
`videoExts ++ audioExts` = {.mp4, .mkv, .mov, .m4a, .mp3, .wav}, the
local-file pipeline fails with the `ValueError` whose message names the
offending extension (`"Unsupported file format: " ++ ext`), the media
extractor is never invoked (`extracted = false`), and the classifier is
never invoked (`classifiedPath = none`). -/
theorem claim4_unsupported_extension_rejected (extractOk : Bool)
    (cls : Option ClassifierOutput) (path ext : String)
    (h1 : ext ∉ videoExts) (h2 : ext ∉ audioExts) :
    detect_from_file extractOk cls path ext
      = ⟨false, none, Except.error
          (PyErr.valueError ("Unsupported file format: " ++ ext))⟩ := by
  unfold detect_from_file process_audio_file
  rw [if_neg h1, if_neg h2]

/-- Claim C4 witness: the theorem applied at the extension `.txt`. -/
theorem claim4_witness :
    (".txt" ∉ videoExts ∧ ".txt" ∉ audioExts) ∧
    detect_from_file true none "/tmp/f.txt" ".txt"
      = ⟨false, none, Except.error
          (PyErr.valueError ("Unsupported file format: " ++ ".txt"))⟩ := by
  refine ⟨by decide, ?_⟩
  exact claim4_unsupported_extension_rejected true none "/tmp/f.txt" ".txt"
    (by decide) (by decide)

/-- Claim C9: for every supported plain-audio extension (`.mp3`, `.wav`),
`process_audio_file` is the identity on the path — it returns the original
input path unchanged with no extraction — and the local-file pipeline hands
exactly that original path to classification. -/
theorem claim9_audio_path_identity (extractOk : Bool)
    (cls : Option ClassifierOutput) (path ext : String)
    (h : ext ∈ audioExts) :
    process_audio_file extractOk path ext
      = ⟨Except.ok path, false,
          [UIEvent.infoBox "Processing audio file…"]⟩ ∧
    (detect_from_file extractOk cls path ext).extracted = false ∧
    (detect_from_file extractOk cls path ext).classifiedPath = some path := by
  have hcase : ext = ".mp3" ∨ ext = ".wav" := by
    simpa [audioExts] using h
  rcases hcase with he | he <;> subst he <;> cases cls <;>
    exact ⟨rfl, rfl, rfl⟩

/-- Claim C9 witness: the theorem applied at a concrete `.mp3` path. -/
theorem claim9_witness :
    (".mp3" ∈ audioExts) ∧
    process_audio_file true "/tmp/a.mp3" ".mp3"
      = ⟨Except.ok "/tmp/a.mp3", false,
          [UIEvent.infoBox "Processing audio file…"]⟩ := by
  refine ⟨by decide, ?_⟩
  exact (claim9_audio_path_identity true none "/tmp/a.mp3" ".mp3"
    (by decide)).1

/-- Claim C1: the claim asserts every temp file created during a pipeline
call is deleted before the call returns, on every exit path. The code
violates it: in the run `envLeak` (download succeeds; the media decoder
fails after `NamedTemporaryFile` already created the WAV on disk, e.g. a
container with no audio stream), `extract_audio` raises before returning
the WAV path, `tmp_audio_path` is still `None` in the `finally` block, so
`cleanup_files` cannot delete the WAV: a temp file created during the call
(`/tmp/tmpa1.wav`) is still on disk when the call returns. -/
theorem claim1_extraction_failure_leaks_wav :
    "/tmp/tmpa1.wav" ∈ (detect_accent_from_url envLeak []).created ∧
    (detect_accent_from_url envLeak []).result = none ∧
    "/tmp/tmpa1.wav" ∈ (detect_accent_from_url envLeak []).fs :=
  ⟨by decide, rfl, by decide⟩

/-- Claim C3 counterexample: status 304 is not 2xx, yet `raise_for_status`
raises only for statuses in [400, 600). In the run `env304` the download
step returns the temp path with no error at all (no DownloadError), the
pipeline does not short-circuit after the fetch step, and a WAV temp file
is created during the call — all three parts of the claim fail. -/
theorem claim3_status304_counterexample :
    (download_video env304 []).2.2 = Except.ok "/tmp/tmpv2.mp4" ∧
    (detect_accent_from_url env304 []).steps ≠ [Step.fetch] ∧
    "/tmp/tmpa2.wav" ∈ (detect_accent_from_url env304 []).created :=
  ⟨rfl, by decide, by decide⟩

/-- Claim C3 (amended): for any URL whose HTTP response has a 4xx or 5xx
status — the statuses `raise_for_status` actually raises for —
`download_video` fails with the `HTTPError` carrying that status before any
file is created, the download step short-circuits the pipeline (only the
fetch step runs), no temp file at all is created (in particular no WAV),
the file system is unchanged, and the orchestrator returns `None` after
showing the error and the guidance text. -/
theorem claim3_amended_4xx5xx_short_circuit (env : Env) (fs : FS)
    (hc : env.connectOk = true) (h1 : 400 ≤ env.status)
    (h2 : env.status < 600) :
    detect_accent_from_url env fs
      = ⟨fs, [], [Step.fetch],
          urlFailureUI (PyErr.httpError env.status), none⟩ := by
  unfold detect_accent_from_url download_video
  rw [if_pos hc, if_pos (⟨h1, h2⟩ : 400 ≤ env.status ∧ env.status < 600)]
  rfl

/-- Claim C3 witness for the amended theorem, at status 404 on an empty
file system. -/
theorem claim3_amended_witness :
    (env404.connectOk = true ∧ 400 ≤ env404.status ∧ env404.status < 600) ∧
    detect_accent_from_url env404 []
      = ⟨[], [], [Step.fetch], urlFailureUI (PyErr.httpError 404), none⟩ := by
  refine ⟨by decide, ?_⟩
  exact claim3_amended_4xx5xx_short_circuit env404 [] rfl (by decide)
    (by decide)

/-- Claim C8: whenever any step of the URL pipeline raises (transport
failure, 4xx/5xx status, mid-stream failure, extraction failure, or
classification failure), the exception is caught at the orchestration
boundary of `detect_accent_from_url`: the call returns `None` instead of
propagating, and the UI receives exactly the user-facing error message
followed by the fixed guidance text. -/
theorem claim8_failures_caught_at_boundary (env : Env) (fs : FS)
    (h : stepFails env) :
    (detect_accent_from_url env fs).result = none ∧
    ∃ e, (detect_accent_from_url env fs).ui = urlFailureUI e := by
  obtain ⟨conn, status, stream, vn, exok, an, clok, cout, rm⟩ := env
  cases conn with
  | false => exact ⟨rfl, ⟨_, rfl⟩⟩
  | true =>
    by_cases hs : 400 ≤ status ∧ status < 600
    · unfold detect_accent_from_url download_video
      rw [if_pos hs]
      exact ⟨rfl, ⟨_, rfl⟩⟩
    · cases stream with
      | false =>
        unfold detect_accent_from_url download_video
        rw [if_neg hs]
        exact ⟨rfl, ⟨_, rfl⟩⟩
      | true =>
        cases exok with
        | false =>
          unfold detect_accent_from_url download_video
          rw [if_neg hs]
          exact ⟨rfl, ⟨_, rfl⟩⟩
        | true =>
          cases clok with
          | false =>
            unfold detect_accent_from_url download_video
            rw [if_neg hs]
            exact ⟨rfl, ⟨_, rfl⟩⟩
          | true =>
            exfalso
            rcases h with h | h | h | h | h
            · exact Bool.noConfusion h
            · exact hs h
            · exact Bool.noConfusion h
            · exact Bool.noConfusion h
            · exact Bool.noConfusion h

/-- Claim C8 witness: applied at a run where only classification fails. -/
theorem claim8_witness :
    stepFails envClassifyFail ∧
    (detect_accent_from_url envClassifyFail []).result = none ∧
    ∃ e, (detect_accent_from_url envClassifyFail []).ui = urlFailureUI e := by
  have hf : stepFails envClassifyFail :=
    Or.inr (Or.inr (Or.inr (Or.inr rfl)))
  exact ⟨hf, claim8_failures_caught_at_boundary envClassifyFail [] hf⟩

end AccentApp
